import Mathlib

/-!
Verification development for `strawberry_django_plus/types.py`.

The file shallowly embeds the module's data model and operations:
the process-wide registry `field_type_map`, the `register` decorator
factory, the `resolve_model_field_type` resolver with its choice-enum
special case (including the `_enum_definition` caching attribute and the
`inspect.cleandoc` docstring cleaning), and the `OperationMessage` /
`OperationMessages` output shapes.
-/

set_option autoImplicit false

namespace StrawberryDjangoPlus

/-- Identity of a column-definition class (a Django `Field` subclass used as
a key of `field_type_map`).  Keys are compared by identity of the class, so
an opaque identifier suffices. -/
abbrev ColumnTypeKey := Nat

/-- A schema-type descriptor (a `StrawberryType` or `ScalarWrapper` value):
an opaque value recorded in the registry and returned by resolution. -/
structure SchemaType where
  id : Nat
deriving DecidableEq, Repr

/-- The process-wide registry `field_type_map`: a mutable mapping from
column-definition class to schema type, modelled as a partial map. -/
def Registry := ColumnTypeKey → Option SchemaType

/-- Python dict assignment `field_type_map[f] = type_`. -/
def Registry.insert (r : Registry) (k : ColumnTypeKey) (v : SchemaType) : Registry :=
  fun k2 => if k2 = k then some v else r k2

/-- The `TypeOrIterable` annotation of `register`: either a single
column-definition class or an iterable of them. -/
inductive TypeOrIterable (a : Type) where
  | single (x : a)
  | iter (l : List a)

/-- Normalisation `fields if isinstance(fields, Iterable) else [fields]` done
by `_wrapper`. -/
def TypeOrIterable.toList {a : Type} : TypeOrIterable a → List a
  | .single x => [x]
  | .iter l => l

/-- Embeds `register(fields, for_input=False)`; the returned `_wrapper`, applied to
`type_`, writes `field_type_map[f] = type_` for each `f` and returns `type_`
unchanged.  The registry is threaded explicitly: the function maps the
registry state before the call to the state after it, paired with the
returned value.  `for_input` is accepted and, as in the source, never read. -/
def register (fields : TypeOrIterable ColumnTypeKey) (for_input : Bool)
    (field_type_map : Registry) (type_ : SchemaType) : Registry × SchemaType :=
  (fields.toList.foldl (fun m f => m.insert f type_) field_type_map, type_)

theorem foldl_insert_of_not_mem (l : List ColumnTypeKey) (m : Registry)
    (v : SchemaType) (k : ColumnTypeKey) (hk : k ∉ l) :
    (l.foldl (fun r f => r.insert f v) m) k = m k := by
  induction l generalizing m with
  | nil => rfl
  | cons a t ih =>
    have hka : k ≠ a := fun h => hk (h ▸ List.mem_cons_self a t)
    have hkt : k ∉ t := fun h => hk (List.mem_cons_of_mem a h)
    simp only [List.foldl_cons]
    rw [ih _ hkt]
    simp [Registry.insert, hka]

theorem foldl_insert_of_mem (l : List ColumnTypeKey) (m : Registry)
    (v : SchemaType) (k : ColumnTypeKey) (hk : k ∈ l) :
    (l.foldl (fun r f => r.insert f v) m) k = some v := by
  induction l generalizing m with
  | nil => cases hk
  | cons a t ih =>
    simp only [List.foldl_cons]
    by_cases ht : k ∈ t
    · exact ih _ ht
    · have hka : k = a := by
        rcases List.mem_cons.mp hk with h | h
        · exact h
        · exact absurd h ht
      rw [foldl_insert_of_not_mem t _ v k ht]
      simp [Registry.insert, hka]

/-- C1: `register(A)(T)` returns the very same value `T`, and records `T`
in the registry under each given column type key. -/
theorem register_returns_input_and_records (fields : TypeOrIterable ColumnTypeKey)
    (for_input : Bool) (reg : Registry) (t : SchemaType) (k : ColumnTypeKey)
    (hk : k ∈ fields.toList) :
    (register fields for_input reg t).2 = t ∧
      (register fields for_input reg t).1 k = some t := by
  refine ⟨rfl, ?_⟩
  exact foldl_insert_of_mem _ _ _ _ hk

/-- Witness for C1 at concrete inputs. -/
theorem register_returns_input_and_records_witness :
    (3 : ColumnTypeKey) ∈ (TypeOrIterable.iter [3, 5]).toList ∧
      ((register (TypeOrIterable.iter [3, 5]) false (fun _ => none) ⟨7⟩).2 = ⟨7⟩ ∧
        (register (TypeOrIterable.iter [3, 5]) false (fun _ => none) ⟨7⟩).1 3 = some ⟨7⟩) :=
  ⟨by decide, register_returns_input_and_records (TypeOrIterable.iter [3, 5]) false
    (fun _ => none) ⟨7⟩ 3 (by decide)⟩

/-- C2: registering `t1` then `t2` under the same key leaves the registry
mapping the key to `t2` (last registration wins); both calls are total, so
no error is raised for the duplicate registration. -/
theorem register_last_registration_wins (k : ColumnTypeKey)
    (t1 t2 : SchemaType) (reg : Registry) (fi1 fi2 : Bool) :
    (register (TypeOrIterable.single k) fi2
        (register (TypeOrIterable.single k) fi1 reg t1).1 t2).1 k = some t2 := by
  simp [register, TypeOrIterable.toList, Registry.insert]

/-- C6: the `for_input` flag has no effect: registry state and returned
value are identical for `for_input = true` and `for_input = false`. -/
theorem register_for_input_unused (fields : TypeOrIterable ColumnTypeKey)
    (reg : Registry) (t : SchemaType) :
    register fields true reg t = register fields false reg t := rfl

/-! ### Model of `inspect.cleandoc` (Python standard library)

`resolve_model_field_type` calls `inspect.cleandoc` on the enum docstring.
The functions below embed CPython's algorithm: expand tabs (tab stop 8),
split on newlines, compute the minimum indentation of the non-blank lines
after the first, left-strip the first line, remove that margin from the
later lines, and drop leading and trailing blank lines. -/

/-- Model of `str.expandtabs()` with the default tab size 8: each tab advances the
column to the next multiple of 8; the column resets after a line break. -/
def expandtabsAux : List Char → Nat → List Char
  | [], _ => []
  | c :: cs, col =>
    if c = '\t' then
      let n := 8 - col % 8
      List.replicate n ' ' ++ expandtabsAux cs (col + n)
    else if c = '\n' ∨ c = '\r' then
      c :: expandtabsAux cs 0
    else
      c :: expandtabsAux cs (col + 1)

/-- Applies `expandtabsAux`, embedding `doc.expandtabs()`. -/
def expandtabs (s : String) : String :=
  ⟨expandtabsAux s.data 0⟩

/-- Model of `line.lstrip()`: remove leading whitespace characters. -/
def pyLstrip (s : String) : String :=
  ⟨s.data.dropWhile Char.isWhitespace⟩

/-- The indentation a line contributes to the margin computation:
`none` for blank lines, else `len(line) - len(line.lstrip())`. -/
def lineIndent (l : String) : Option Nat :=
  let content := (pyLstrip l).length
  if content = 0 then none else some (l.length - content)

/-- The `margin` loop of `cleandoc`: the minimum indentation over the
non-blank lines, `none` when every line is blank (`sys.maxsize` stands). -/
def marginOf (lines : List String) : Option Nat :=
  lines.foldl
    (fun m l =>
      match lineIndent l with
      | none => m
      | some i =>
        match m with
        | none => some i
        | some m0 => some (min m0 i))
    none

/-- Splitting a character list at newline characters; on the empty list the
result is one empty line, as in Python, where `"".split(c)` is `[""]`. -/
def splitLinesAux : List Char → List (List Char)
  | [] => [[]]
  | c :: cs =>
    if c = '\n' then [] :: splitLinesAux cs
    else
      match splitLinesAux cs with
      | [] => [[c]]
      | l :: ls => (c :: l) :: ls

/-- Model of `doc.split(chr(10))`. -/
def splitLines (s : String) : List String :=
  (splitLinesAux s.data).map (fun l => ⟨l⟩)

/-- The loop `while lines and not lines[-1]: lines.pop()`. -/
def dropTrailingBlank (ls : List String) : List String :=
  (ls.reverse.dropWhile (fun l => l = "")).reverse

/-- Model of `inspect.cleandoc(doc)`. -/
def cleandoc (doc : String) : String :=
  match splitLines (expandtabs doc) with
  | [] => ""
  | first :: rest =>
    let margin := marginOf rest
    let rest2 := match margin with
      | none => rest
      | some m => rest.map (fun l => l.drop m)
    let ls := pyLstrip first :: rest2
    let ls2 := dropTrailingBlank ls
    let ls3 := ls2.dropWhile (fun l => l = "")
    String.intercalate "\n" ls3

/-! ### Field type resolver -/

/-- A choices enumeration class (`TextChoices` / `IntegerChoices`):
an identity plus its `__doc__` (absent when the class has no docstring). -/
structure EnumType where
  id : Nat
  doc : Option String
deriving DecidableEq, Repr

/-- The `_enum_definition` descriptor produced by `strawberry.enum`:
it wraps the enumeration class and carries the derived description. -/
structure EnumDefinition where
  enumId : Nat
  description : Option String
deriving DecidableEq, Repr

/-- The per-process state of the `_enum_definition` attribute: for each
enumeration class (by identity), the cached definition if one was set. -/
def EnumDefState := Nat → Option EnumDefinition

/-- Model of `strawberry.enum(field_type, description=doc)`: builds the enum
definition and stores it as the `_enum_definition` attribute of the class,
returning the definition together with the updated attribute state. -/
def strawberryEnum (field_type : EnumType) (description : Option String)
    (st : EnumDefState) : EnumDefinition × EnumDefState :=
  let d : EnumDefinition := ⟨field_type.id, description⟩
  (d, fun i => if i = field_type.id then some d else st i)

/-- The expression `field_type.__doc__ and inspect.cleandoc(field_type.__doc__)`:
`none` when `__doc__` is `None`; the empty string is falsy, so an empty
docstring is passed through unchanged; otherwise `cleandoc` is applied. -/
def docDescription : Option String → Option String
  | none => none
  | some s => if s = "" then some "" else some (cleandoc s)

/-- A model field (`Field` or `ForeignObjectRel`) as the resolver sees it:
whether it is an instance of `TextChoicesField` / `IntegerChoicesField`,
its `choices_enum` attribute (meaningful in that case), and the identity of
its concrete class, the key consulted by the default resolution. -/
structure ModelField where
  is_choices_field : Bool
  choices_enum : EnumType
  column_type : ColumnTypeKey
deriving DecidableEq, Repr

/-- The `StrawberryDjangoType` context argument; the resolver passes it to
the default resolution and never inspects it, so it is opaque. -/
structure StrawberryDjangoType where
  id : Nat
deriving DecidableEq, Repr

/-- The failure the default resolution can raise. -/
inductive ResolveError where
  | unsupportedFieldType (k : ColumnTypeKey)
deriving DecidableEq, Repr

/-- What the resolver returns: an enum definition (choice branch) or a
registered / built-in schema type (default branch). -/
inductive FieldTypeResult where
  | enumDef (d : EnumDefinition)
  | schema (t : SchemaType)
deriving DecidableEq, Repr

/-- Modelled from the spec: `strawberry_django.fields.types.
resolve_model_field_type` (imported as `_resolve_model_field`), an external
dependency whose code is not in this repository.  Per the spec it consults
the Type Registry keyed by the field's concrete column type, falls back to
the host's built-in default mapping table, and fails with
`UnsupportedFieldType` when neither has an entry. -/
def defaultResolveModelField (builtin field_type_map : Registry)
    (model_field : ModelField) (django_type : StrawberryDjangoType) :
    Except ResolveError FieldTypeResult :=
  let _ := django_type
  match field_type_map model_field.column_type with
  | some t => Except.ok (FieldTypeResult.schema t)
  | none =>
    match builtin model_field.column_type with
    | some t => Except.ok (FieldTypeResult.schema t)
    | none => Except.error (ResolveError.unsupportedFieldType model_field.column_type)

/-- Embeds `resolve_model_field_type(model_field, django_type)`.
`has_choices_field` is the module-level flag set once at import from the
`django_choices_field` import probe.  The `_enum_definition` attribute
state is threaded explicitly; the result pairs the returned value (or the
propagated error) with the attribute state after the call. -/
def resolve_model_field_type (has_choices_field : Bool)
    (builtin field_type_map : Registry) (model_field : ModelField)
    (django_type : StrawberryDjangoType) (st : EnumDefState) :
    Except ResolveError FieldTypeResult × EnumDefState :=
  if has_choices_field && model_field.is_choices_field then
    let field_type := model_field.choices_enum
    match st field_type.id with
    | some enum_def => (Except.ok (FieldTypeResult.enumDef enum_def), st)
    | none =>
      let doc := docDescription field_type.doc
      let r := strawberryEnum field_type doc st
      (Except.ok (FieldTypeResult.enumDef r.1), r.2)
  else
    (defaultResolveModelField builtin field_type_map model_field django_type, st)

/-- Evaluation lemma: `cleandoc` of the empty string is the empty string. -/
theorem cleandoc_empty : cleandoc "" = "" := by decide

/-- The falsy-empty-string quirk of `doc and cleandoc(doc)` is invisible:
the computed description is exactly `cleandoc` mapped over the docstring. -/
theorem docDescription_eq_map_cleandoc (d : Option String) :
    docDescription d = d.map cleandoc := by
  cases d with
  | none => rfl
  | some s =>
    by_cases h : s = ""
    · subst h
      simp [docDescription, cleandoc_empty]
    · simp [docDescription, h]

/-- Sample choices enumeration used by the concrete witnesses. -/
def sampleEnum : EnumType := ⟨7, some "Sample enum docstring"⟩

/-- Sample `TextChoicesField`-like model field. -/
def sampleChoicesField : ModelField := ⟨true, sampleEnum, 3⟩

/-- Sample ordinary (non-choices) model field. -/
def samplePlainField : ModelField := ⟨false, sampleEnum, 3⟩

/-- Sample empty registry. -/
def emptyRegistry : Registry := fun _ => none

/-- Sample `_enum_definition` attribute state with no enum wrapped yet. -/
def noEnumDefs : EnumDefState := fun _ => none

/-- Sample resolution context. -/
def sampleContext : StrawberryDjangoType := ⟨0⟩

/-- A second, distinct sample resolution context. -/
def sampleContext2 : StrawberryDjangoType := ⟨1⟩

/-- C3: resolving a choice-valued field a second time returns the identical
enum descriptor and leaves the attribute state unchanged; the first call
leaves the wrapped definition cached on the enum type via the
`_enum_definition` attribute. -/
theorem resolve_choices_idempotent (builtin ftm : Registry) (f : ModelField)
    (dt : StrawberryDjangoType) (st : EnumDefState)
    (hc : f.is_choices_field = true) :
    resolve_model_field_type true builtin ftm f dt
        (resolve_model_field_type true builtin ftm f dt st).2 =
      resolve_model_field_type true builtin ftm f dt st ∧
    ∃ d, (resolve_model_field_type true builtin ftm f dt st).1 =
          Except.ok (FieldTypeResult.enumDef d) ∧
        (resolve_model_field_type true builtin ftm f dt st).2 f.choices_enum.id = some d := by
  cases h : st f.choices_enum.id with
  | some d => simp [resolve_model_field_type, hc, h]
  | none => simp [resolve_model_field_type, hc, h, strawberryEnum]

/-- Witness for C3 at concrete inputs. -/
theorem resolve_choices_idempotent_witness :
    sampleChoicesField.is_choices_field = true ∧
      (resolve_model_field_type true emptyRegistry emptyRegistry sampleChoicesField
          sampleContext (resolve_model_field_type true emptyRegistry emptyRegistry
            sampleChoicesField sampleContext noEnumDefs).2 =
        resolve_model_field_type true emptyRegistry emptyRegistry sampleChoicesField
          sampleContext noEnumDefs ∧
      ∃ d, (resolve_model_field_type true emptyRegistry emptyRegistry sampleChoicesField
              sampleContext noEnumDefs).1 =
            Except.ok (FieldTypeResult.enumDef d) ∧
          (resolve_model_field_type true emptyRegistry emptyRegistry sampleChoicesField
              sampleContext noEnumDefs).2 sampleChoicesField.choices_enum.id = some d) :=
  ⟨rfl, resolve_choices_idempotent emptyRegistry emptyRegistry sampleChoicesField
    sampleContext noEnumDefs rfl⟩

/-- C4: whenever the choice-enum special case does not apply (the flag is
false or the field is not a choices field), the resolver returns exactly
the default resolution applied to the same two arguments and leaves the
attribute state untouched; at `has_choices_field = false` this makes the
two functions equal on every input. -/
theorem resolve_delegates_to_default (has_choices_field : Bool)
    (builtin ftm : Registry) (f : ModelField) (dt : StrawberryDjangoType)
    (st : EnumDefState)
    (h : has_choices_field = false ∨ f.is_choices_field = false) :
    resolve_model_field_type has_choices_field builtin ftm f dt st =
      (defaultResolveModelField builtin ftm f dt, st) := by
  have hb : (has_choices_field && f.is_choices_field) = false := by
    rcases h with h | h <;> simp [h]
  simp [resolve_model_field_type, hb]

/-- Witness for C4 at concrete inputs. -/
theorem resolve_delegates_to_default_witness :
    (false = false ∨ samplePlainField.is_choices_field = false) ∧
      resolve_model_field_type false emptyRegistry emptyRegistry samplePlainField
          sampleContext noEnumDefs =
        (defaultResolveModelField emptyRegistry emptyRegistry samplePlainField
          sampleContext, noEnumDefs) :=
  ⟨Or.inl rfl, resolve_delegates_to_default false emptyRegistry emptyRegistry
    samplePlainField sampleContext noEnumDefs (Or.inl rfl)⟩

/-- C5: the resolver fails exactly when it delegates and the field's column
type has neither a registration nor a built-in default, and then with
`UnsupportedFieldType`; the choice-enum branch never produces an error. -/
theorem resolve_error_iff_default (has_choices_field : Bool)
    (builtin ftm : Registry) (f : ModelField) (dt : StrawberryDjangoType)
    (st : EnumDefState) (e : ResolveError) :
    (resolve_model_field_type has_choices_field builtin ftm f dt st).1 =
        Except.error e ↔
      ((has_choices_field && f.is_choices_field) = false ∧
        ftm f.column_type = none ∧ builtin f.column_type = none ∧
        e = ResolveError.unsupportedFieldType f.column_type) := by
  cases hb : has_choices_field && f.is_choices_field with
  | false =>
    cases h1 : ftm f.column_type <;> cases h2 : builtin f.column_type <;>
      simp [resolve_model_field_type, defaultResolveModelField, hb, h1, h2, eq_comm]
  | true =>
    cases h : st f.choices_enum.id <;>
      simp [resolve_model_field_type, hb, h, strawberryEnum]

/-- C7: on the first wrapping of a choices enumeration, the schema enum's
description is the docstring cleaned by `cleandoc` when a docstring is
present, and absent otherwise. -/
theorem resolve_choices_description (builtin ftm : Registry) (f : ModelField)
    (dt : StrawberryDjangoType) (st : EnumDefState)
    (hc : f.is_choices_field = true) (hnew : st f.choices_enum.id = none) :
    (resolve_model_field_type true builtin ftm f dt st).1 =
      Except.ok (FieldTypeResult.enumDef
        ⟨f.choices_enum.id, f.choices_enum.doc.map cleandoc⟩) := by
  simp [resolve_model_field_type, hc, hnew, strawberryEnum,
    docDescription_eq_map_cleandoc]

/-- Witness for C7 at concrete inputs. -/
theorem resolve_choices_description_witness :
    (sampleChoicesField.is_choices_field = true ∧
      noEnumDefs sampleChoicesField.choices_enum.id = none) ∧
      (resolve_model_field_type true emptyRegistry emptyRegistry sampleChoicesField
          sampleContext noEnumDefs).1 =
        Except.ok (FieldTypeResult.enumDef
          ⟨sampleChoicesField.choices_enum.id,
            sampleChoicesField.choices_enum.doc.map cleandoc⟩) :=
  ⟨⟨rfl, rfl⟩, resolve_choices_description emptyRegistry emptyRegistry
    sampleChoicesField sampleContext noEnumDefs rfl rfl⟩

/-- C10: when the choice-enum special case is taken, the result does not
depend on the `django_type` context argument. -/
theorem resolve_choices_context_independent (builtin ftm : Registry)
    (f : ModelField) (c1 c2 : StrawberryDjangoType) (st : EnumDefState)
    (hc : f.is_choices_field = true) :
    resolve_model_field_type true builtin ftm f c1 st =
      resolve_model_field_type true builtin ftm f c2 st := by
  cases h : st f.choices_enum.id <;> simp [resolve_model_field_type, hc, h]

/-- Witness for C10 at concrete inputs. -/
theorem resolve_choices_context_independent_witness :
    sampleChoicesField.is_choices_field = true ∧
      resolve_model_field_type true emptyRegistry emptyRegistry sampleChoicesField
          sampleContext noEnumDefs =
        resolve_model_field_type true emptyRegistry emptyRegistry sampleChoicesField
          sampleContext2 noEnumDefs :=
  ⟨rfl, resolve_choices_context_independent emptyRegistry emptyRegistry
    sampleChoicesField sampleContext sampleContext2 noEnumDefs rfl⟩

/-! ### Output shapes -/

/-- The nested `OperationMessage.Kind` enum, exposed to clients under the
GraphQL name `OperationMessageKind`, with its five members in declaration
order. -/
inductive OperationMessageKind where
  | INFO
  | WARNING
  | ERROR
  | PERMISSION
  | VALIDATION
deriving DecidableEq, Repr

/-- The string value assigned to each member of the enum. -/
def OperationMessageKind.value : OperationMessageKind → String
  | .INFO => "info"
  | .WARNING => "warning"
  | .ERROR => "error"
  | .PERMISSION => "permission"
  | .VALIDATION => "validation"

/-- The members of the enum, in declaration order. -/
def OperationMessageKind.members : List OperationMessageKind :=
  [.INFO, .WARNING, .ERROR, .PERMISSION, .VALIDATION]

/-- Embeds the `OperationMessage` output shape: `kind` and `message` are
required constructor arguments; `field` defaults to `None`. -/
structure OperationMessage where
  kind : OperationMessageKind
  message : String
  field : Option String := none
deriving DecidableEq, Repr

/-- Embeds the `OperationMessages` output shape: an ordered list of
`OperationMessage` values. -/
structure OperationMessages where
  messages : List OperationMessage
deriving DecidableEq, Repr

/-- C8: the client-visible enum has exactly five values, pairwise distinct,
whose string values are info, warning, error, permission and validation. -/
theorem operation_message_kind_values :
    OperationMessageKind.members.map OperationMessageKind.value =
        ["info", "warning", "error", "permission", "validation"] ∧
      OperationMessageKind.members.Nodup ∧
      ∀ k : OperationMessageKind, k ∈ OperationMessageKind.members := by
  refine ⟨rfl, by decide, fun k => ?_⟩
  cases k <;> decide

/-- C9: the output shapes round-trip their construction arguments:
`OperationMessage` built from a kind and a message reads them back with
`field` absent, and `OperationMessages` holds exactly the given sequence
in order. -/
theorem operation_message_round_trip :
    (∀ (k : OperationMessageKind) (m : String),
      ({ kind := k, message := m } : OperationMessage).kind = k ∧
        ({ kind := k, message := m } : OperationMessage).message = m ∧
        ({ kind := k, message := m } : OperationMessage).field = none) ∧
      ∀ ms : List OperationMessage, (OperationMessages.mk ms).messages = ms :=
  ⟨fun _ _ => ⟨rfl, rfl, rfl⟩, fun _ => rfl⟩

end StrawberryDjangoPlus
